import Mathlib

/-!
# Verification of the MoviesStore catalog layer

Shallow embedding of `src/stores/MoviesStore.tsx` (together with the date
helpers of `DateUtil`) of the movie-database-app repository.

Modelling conventions:
* JavaScript strings are Lean `String`s; the JS string operations used by the
  store (`trim`, `toLowerCase`, `split(' ')`, `includes`, `charAt(0)`) are
  re-implemented on `List Char` below with JS semantics (in particular
  `split` keeps empty segments and splits on the single separator character).
* The MobX store instance is a `MoviesStoreState` record; each async method
  becomes a pure function from the pre-state (plus the outcome of the remote
  HTTP call, which is a parameter) to the post-state and its return value.
  Methods additionally report the number of remote HTTP requests they issued.
* `new Date(s).getTime()` is modelled by `dateTimeOf`, a parse of
  `YYYY-MM-DD` strings into an integer encoding that is strictly monotone in
  the calendar date, so every comparison made by the sort comparator is
  preserved.  Unparseable strings give `none`; the comparator then returns 0,
  matching ECMAScript `SortCompare` coercing a NaN comparator result to +0.
* `Array.prototype.sort` is modelled as a stable sort that moves a later
  element before an earlier one only when the comparator demands it
  (comparator strictly negative), which is how the TimSort/merge
  implementations of the JS engines consult a user comparator.
-/

/-- Movie summary record (interface `Movie`). `release_date` uses `""` for a
missing date, matching the falsiness test `!movie.release_date` in the code. -/
structure Movie where
  id : Int
  title : String
  poster_path : String
  backdrop_path : String
  release_date : String
  vote_average : Int
  overview : String
  genre_ids : List Int
  original_title : Option String
deriving Repr, DecidableEq

/-- Genre record inside `MovieDetail`. -/
structure GenreRec where
  id : Int
  name : String
deriving Repr, DecidableEq

/-- Production company record inside `MovieDetail`. -/
structure ProductionCompany where
  id : Int
  name : String
  logo_path : String
  origin_country : String
deriving Repr, DecidableEq

/-- Cast member record inside `MovieDetail.credits`. -/
structure CastMember where
  id : Int
  name : String
  character : String
  profile_path : String
deriving Repr, DecidableEq

/-- Crew member record inside `MovieDetail.credits`. -/
structure CrewMember where
  id : Int
  name : String
  job : String
  department : String
  profile_path : String
deriving Repr, DecidableEq

/-- Credits structure inside `MovieDetail`. -/
structure CreditsRec where
  cast : List CastMember
  crew : List CrewMember
deriving Repr, DecidableEq

/-- Detailed movie record (interface `MovieDetail extends Movie`). -/
structure MovieDetail where
  toMovie : Movie
  genres : List GenreRec
  runtime : Int
  status : String
  tagline : String
  original_language : String
  production_companies : List ProductionCompany
  credits : Option CreditsRec
deriving Repr, DecidableEq

/-- List-endpoint response envelope (interface `MovieResponse`). -/
structure MovieResponse where
  page : Int
  results : List Movie
  total_pages : Int
  total_results : Int
deriving Repr, DecidableEq

/-- The fixed category enumeration (`type MovieCategory`). -/
inductive MovieCategory where
  | now_playing
  | upcoming
  | popular
  | search
deriving Repr, DecidableEq

/-- User profile record (interface `UserProfile`); the avatar sub-object is
flattened to the two optional fields the code reads. -/
structure UserProfile where
  id : Int
  name : String
  username : String
  gravatarHash : Option String
  tmdbAvatarPath : Option String
deriving Repr, DecidableEq

/-- The `loading` map of the store: one flag per `MovieCategory` plus
`profile`. -/
structure LoadingFlags where
  now_playing : Bool
  upcoming : Bool
  popular : Bool
  search : Bool
  profile : Bool
deriving Repr, DecidableEq

/-- Read `loading[category]`. -/
def LoadingFlags.get (f : LoadingFlags) : MovieCategory → Bool
  | .now_playing => f.now_playing
  | .upcoming => f.upcoming
  | .popular => f.popular
  | .search => f.search

/-- Write `loading[category] = b`. -/
def LoadingFlags.set (f : LoadingFlags) (c : MovieCategory) (b : Bool) : LoadingFlags :=
  match c with
  | .now_playing => { f with now_playing := b }
  | .upcoming => { f with upcoming := b }
  | .popular => { f with popular := b }
  | .search => { f with search := b }

/-- The `error` map of the store: one optional message per `MovieCategory`
plus `profile`. -/
structure ErrorSlots where
  now_playing : Option String
  upcoming : Option String
  popular : Option String
  search : Option String
  profile : Option String
deriving Repr, DecidableEq

/-- Read `error[category]`. -/
def ErrorSlots.get (e : ErrorSlots) : MovieCategory → Option String
  | .now_playing => e.now_playing
  | .upcoming => e.upcoming
  | .popular => e.popular
  | .search => e.search

/-- Write `error[category] = v`. -/
def ErrorSlots.set (e : ErrorSlots) (c : MovieCategory) (v : Option String) : ErrorSlots :=
  match c with
  | .now_playing => { e with now_playing := v }
  | .upcoming => { e with upcoming := v }
  | .popular => { e with popular := v }
  | .search => { e with search := v }

/-- A per-category integer map (`currentPage` / `totalPages`). -/
structure PageMap where
  now_playing : Int
  upcoming : Int
  popular : Int
  search : Int
deriving Repr, DecidableEq

/-- Read the counter of a category. -/
def PageMap.get (p : PageMap) : MovieCategory → Int
  | .now_playing => p.now_playing
  | .upcoming => p.upcoming
  | .popular => p.popular
  | .search => p.search

/-- Write the counter of a category. -/
def PageMap.set (p : PageMap) (c : MovieCategory) (v : Int) : PageMap :=
  match c with
  | .now_playing => { p with now_playing := v }
  | .upcoming => { p with upcoming := v }
  | .popular => { p with popular := v }
  | .search => { p with search := v }

/-- Write the same pair of values into every key of `currentPage` /
`totalPages`, as the `Object.keys(...).forEach` loop of `clearCache` does. -/
def PageMap.setAll (v : Int) : PageMap :=
  { now_playing := v, upcoming := v, popular := v, search := v }

/-- The observable state of `class MoviesStore`. -/
structure MoviesStoreState where
  nowPlayingMovies : List Movie
  upcomingMovies : List Movie
  popularMovies : List Movie
  watchlistMovies : List Movie
  userProfile : Option UserProfile
  loading : LoadingFlags
  error : ErrorSlots
  currentPage : PageMap
  totalPages : PageMap
  currentMovieDetail : Option MovieDetail
deriving Repr, DecidableEq

/-- The field initializers of `class MoviesStore`. -/
def MoviesStoreState.initial : MoviesStoreState :=
  { nowPlayingMovies := []
    upcomingMovies := []
    popularMovies := []
    watchlistMovies := []
    userProfile := none
    loading := { now_playing := false, upcoming := false, popular := false
                 search := false, profile := false }
    error := { now_playing := none, upcoming := none, popular := none
               search := none, profile := none }
    currentPage := PageMap.setAll 1
    totalPages := PageMap.setAll 0
    currentMovieDetail := none }

/-- `clearCache()`: empties the three category collections and resets both
pagination counters for every category key; touches nothing else. -/
def clearCache (s : MoviesStoreState) : MoviesStoreState :=
  { s with
    nowPlayingMovies := []
    upcomingMovies := []
    popularMovies := []
    currentPage := PageMap.setAll 1
    totalPages := PageMap.setAll 0 }

/-! ## DateUtil (`src/utils/DateUtil`, moment-based date helpers)

Calendar dates are proleptic-Gregorian `CivilDate` records; conversion to and
from a day count uses the standard civil-from-days / days-from-civil integer
algorithm, and month addition clamps the day-of-month to the target month's
length, which is the semantics of moment's `add(n, 'months')`.  The current
local date (`moment()`) is passed in as an explicit `today` parameter. -/

/-- A calendar date (year, month 1..12, day 1..31). -/
structure CivilDate where
  year : Int
  month : Int
  day : Int
deriving Repr, DecidableEq

/-- Days since the civil epoch 1970-01-01 of a calendar date. -/
def civilToDays (d : CivilDate) : Int :=
  let y := if d.month ≤ 2 then d.year - 1 else d.year
  let era := Int.fdiv y 400
  let yoe := y - era * 400
  let mp := if d.month > 2 then d.month - 3 else d.month + 9
  let doy := Int.fdiv (153 * mp + 2) 5 + d.day - 1
  let doe := yoe * 365 + Int.fdiv yoe 4 - Int.fdiv yoe 100 + doy
  era * 146097 + doe - 719468

/-- Calendar date of a count of days since 1970-01-01. -/
def civilFromDays (z0 : Int) : CivilDate :=
  let z := z0 + 719468
  let era := Int.fdiv z 146097
  let doe := z - era * 146097
  let yoe := Int.fdiv (doe - Int.fdiv doe 1460 + Int.fdiv doe 36524 - Int.fdiv doe 146096) 365
  let y := yoe + era * 400
  let doy := doe - (365 * yoe + Int.fdiv yoe 4 - Int.fdiv yoe 100)
  let mp := Int.fdiv (5 * doy + 2) 153
  let d := doy - Int.fdiv (153 * mp + 2) 5 + 1
  let m := if mp < 10 then mp + 3 else mp - 9
  { year := if m ≤ 2 then y + 1 else y, month := m, day := d }

/-- Shift a calendar date by `n` days (`moment().add/subtract(n, 'days')`). -/
def addDaysCivil (d : CivilDate) (n : Int) : CivilDate :=
  civilFromDays (civilToDays d + n)

/-- Gregorian leap-year test. -/
def isLeapYear (y : Int) : Bool :=
  y % 4 == 0 && (y % 100 != 0 || y % 400 == 0)

/-- Number of days of month `m` of year `y`. -/
def daysInMonth (y m : Int) : Int :=
  if m = 2 then (if isLeapYear y then 29 else 28)
  else if m = 4 ∨ m = 6 ∨ m = 9 ∨ m = 11 then 30
  else 31

/-- Shift a calendar date by `n` months with day-of-month clamping
(`moment().add(n, 'months')`). -/
def addMonthsCivil (d : CivilDate) (n : Int) : CivilDate :=
  let tot := d.year * 12 + (d.month - 1) + n
  let y := Int.fdiv tot 12
  let m := tot - y * 12 + 1
  { year := y, month := m, day := min d.day (daysInMonth y m) }

/-- Left-pad the decimal digits of a number to a given width. -/
def padNum (width : Nat) (n : Int) : String :=
  let s := toString n.toNat
  String.mk (List.replicate (width - s.length) '0') ++ s

/-- Format a calendar date as `YYYY-MM-DD` (moment format string of DateUtil). -/
def formatYMD (d : CivilDate) : String :=
  padNum 4 d.year ++ "-" ++ padNum 2 d.month ++ "-" ++ padNum 2 d.day

/-- `DateUtil.getCurrentDateFormatted()`. -/
def getCurrentDateFormatted (today : CivilDate) : String := formatYMD today

/-- `DateUtil.getDateDaysAgo(days)`: `moment().subtract(days, 'days')`. -/
def getDateDaysAgo (today : CivilDate) (days : Int) : String :=
  formatYMD (addDaysCivil today (-days))

/-- `DateUtil.getDateDaysFromNow(days)`: `moment().add(days, 'days')`. -/
def getDateDaysFromNow (today : CivilDate) (days : Int) : String :=
  formatYMD (addDaysCivil today days)

/-- `DateUtil.getDateMonthsFromNow(months)`: `moment().add(months, 'months')`. -/
def getDateMonthsFromNow (today : CivilDate) (months : Int) : String :=
  formatYMD (addMonthsCivil today months)

/-! ## JavaScript string primitives used by `searchMovies` -/

/-- JS `String.prototype.trim`: strip leading and trailing whitespace. -/
def jsTrimList (l : List Char) : List Char :=
  ((l.dropWhile Char.isWhitespace).reverse.dropWhile Char.isWhitespace).reverse

/-- JS `trim` on a `String`. -/
def jsTrim (s : String) : String := String.mk (jsTrimList s.toList)

/-- JS `String.prototype.toLowerCase` (ASCII model). -/
def jsToLower (l : List Char) : List Char := l.map Char.toLower

/-- JS `String.prototype.split(sep)` with a single-character separator:
splits at every occurrence of exactly that character, keeping empty
segments, and splitting the empty string yields `[""]`. -/
def jsSplitChar (sep : Char) : List Char → List (List Char)
  | [] => [[]]
  | c :: cs =>
    let r := jsSplitChar sep cs
    if c = sep then [] :: r
    else
      match r with
      | seg :: rest => (c :: seg) :: rest
      | [] => [[c]]

/-- Whether `needle` is a leading segment of `hay`. -/
def headStartsWith : List Char → List Char → Bool
  | _, [] => true
  | [], _ :: _ => false
  | c :: cs, d :: ds => c == d && headStartsWith cs ds

/-- JS `String.prototype.includes`: `needle` occurs contiguously in `hay`. -/
def jsIncludesList : List Char → List Char → Bool
  | [], needle => headStartsWith [] needle
  | c :: cs, needle => headStartsWith (c :: cs) needle || jsIncludesList cs needle

/-- All-digit string to number; `none` on an empty or non-digit segment. -/
def digitsVal (l : List Char) : Option Nat :=
  if l ≠ [] ∧ l.all Char.isDigit then
    some (l.foldl (fun acc c => acc * 10 + (c.toNat - 48)) 0)
  else none

/-- Model of `new Date(s).getTime()` for `YYYY-MM-DD` release-date strings:
an integer encoding `y*10000 + m*100 + d` that is strictly monotone in the
calendar date, so it induces the same comparisons as epoch milliseconds.
Strings not of the dash-separated three-numeric-field shape give `none`
(JS would produce `NaN`). -/
def dateTimeOf (s : String) : Option Int :=
  match jsSplitChar '-' s.toList with
  | [y, m, d] =>
    match digitsVal y, digitsVal m, digitsVal d with
    | some yn, some mn, some dn => some ((yn : Int) * 10000 + (mn : Int) * 100 + (dn : Int))
    | _, _, _ => none
  | _ => none

/-! ## Remote-call outcomes and error messages -/

/-- A failed HTTP call, as seen by the catch blocks: whether
`axios.isAxiosError` holds, the error's `message`, and the optional
`response.status`. -/
structure ApiFailure where
  isAxiosError : Bool
  message : String
  status : Option Int
deriving Repr, DecidableEq

/-- Outcome of a list-endpoint GET: a parsed `MovieResponse` or a failure. -/
inductive FetchOutcome where
  | ok (resp : MovieResponse)
  | err (e : ApiFailure)
deriving Repr, DecidableEq

/-- Rendering of `error.response?.status` inside a template literal. -/
def statusText : Option Int → String
  | some n => toString n
  | none => "undefined"

/-- The error message computed by the catch blocks:
`axios.isAxiosError(error) ? error.message || Error <status> : 'Unknown error'`
(`||` takes the right operand when `message` is the empty string). -/
def axiosErrorMessage (e : ApiFailure) : String :=
  if e.isAxiosError then
    (if e.message = "" then "Error " ++ statusText e.status else e.message)
  else "Unknown error"

/-! ## Category fetches (`fetchMoviesByCategory` and its wrappers) -/

/-- Query parameters of a `GET /discover/movie` request. -/
structure DiscoverParams where
  include_adult : Bool
  include_video : Bool
  language : String
  page : Int
  sort_by : String
  with_release_type : Option String
  release_date_gte : Option String
  release_date_lte : Option String
deriving Repr, DecidableEq

/-- The `switch (category)` of `fetchMoviesByCategory` that chooses endpoint
and parameters; `none` models the `default: throw new Error('Invalid
category')` branch (in this store only `now_playing` and `upcoming` have
cases). -/
def buildCategoryRequest (category : MovieCategory) (page : Int) (today : CivilDate) :
    Option (String × DiscoverParams) :=
  match category with
  | .now_playing =>
    let pastDateStr := getDateDaysAgo today 60
    let currentDateStr := getCurrentDateFormatted today
    some ("/discover/movie",
      { include_adult := false, include_video := false, language := "en-US", page := page
        sort_by := "popularity.desc", with_release_type := some "2|3"
        release_date_gte := some pastDateStr, release_date_lte := some currentDateStr })
  | .upcoming =>
    let tomorrowStr := getDateDaysFromNow today 1
    let maxDateStr := getDateMonthsFromNow today 2
    some ("/discover/movie",
      { include_adult := false, include_video := false, language := "en-US", page := page
        sort_by := "popularity.desc", with_release_type := some "2|3"
        release_date_gte := some tomorrowStr, release_date_lte := some maxDateStr })
  | _ => none

/-- The first `runInAction` of `fetchMoviesByCategory`, run synchronously
before the remote call: `loading[category] = true; error[category] = null`. -/
def fetchCategoryStart (category : MovieCategory) (s : MoviesStoreState) : MoviesStoreState :=
  { s with loading := s.loading.set category true
           error := s.error.set category none }

/-- `fetchMoviesByCategory(category, page)`.  The second component counts the
remote HTTP requests issued (0 when the category switch throws before the
call, 1 otherwise).  A thrown `Error('Invalid category')` is caught by the
same catch block as a network failure; it is not an axios error, so the
stored message is `'Unknown error'`. -/
def fetchMoviesByCategory (category : MovieCategory) (page : Int) (today : CivilDate)
    (outcome : FetchOutcome) (s : MoviesStoreState) : MoviesStoreState × Nat :=
  let s0 := fetchCategoryStart category s
  match buildCategoryRequest category page today with
  | none =>
    ({ s0 with loading := s0.loading.set category false
               error := s0.error.set category (some "Unknown error") }, 0)
  | some _ =>
    match outcome with
    | .ok resp =>
      let s1 :=
        match category with
        | .now_playing => { s0 with nowPlayingMovies := resp.results }
        | .upcoming => { s0 with upcomingMovies := resp.results }
        | _ => s0
      ({ s1 with currentPage := s1.currentPage.set category resp.page
                 totalPages := s1.totalPages.set category resp.total_pages
                 loading := s1.loading.set category false }, 1)
    | .err e =>
      ({ s0 with loading := s0.loading.set category false
                 error := s0.error.set category (some (axiosErrorMessage e)) }, 1)

/-- `fetchPopularMoviesSorted(sortBy)`: one `/discover/movie` request; on
success stores the results in `popularMovies` (pagination counters are not
touched by this method); on failure stores the fixed message
`'Failed to fetch sorted movies'`. -/
def fetchPopularMoviesSorted (sortBy : String) (outcome : FetchOutcome)
    (s : MoviesStoreState) : MoviesStoreState × Nat :=
  let _ := sortBy
  let s0 := { s with loading := s.loading.set .popular true
                     error := s.error.set .popular none }
  match outcome with
  | .ok resp =>
    ({ s0 with popularMovies := resp.results
               loading := s0.loading.set .popular false }, 1)
  | .err _ =>
    ({ s0 with loading := s0.loading.set .popular false
               error := s0.error.set .popular (some "Failed to fetch sorted movies") }, 1)

/-- `fetchNowPlayingMovies(forceRefresh)`: cache-bypass wrapper. -/
def fetchNowPlayingMovies (forceRefresh : Bool) (today : CivilDate) (outcome : FetchOutcome)
    (s : MoviesStoreState) : MoviesStoreState × Nat :=
  if s.nowPlayingMovies.length > 0 && !forceRefresh then (s, 0)
  else fetchMoviesByCategory .now_playing 1 today outcome s

/-- `fetchUpcomingMovies(forceRefresh)`: cache-bypass wrapper. -/
def fetchUpcomingMovies (forceRefresh : Bool) (today : CivilDate) (outcome : FetchOutcome)
    (s : MoviesStoreState) : MoviesStoreState × Nat :=
  if s.upcomingMovies.length > 0 && !forceRefresh then (s, 0)
  else fetchMoviesByCategory .upcoming 1 today outcome s

/-- `fetchPopularMovies(forceRefresh)`: cache-bypass wrapper delegating to
`fetchPopularMoviesSorted('popularity.desc')`. -/
def fetchPopularMovies (forceRefresh : Bool) (outcome : FetchOutcome)
    (s : MoviesStoreState) : MoviesStoreState × Nat :=
  if s.popularMovies.length > 0 && !forceRefresh then (s, 0)
  else fetchPopularMoviesSorted "popularity.desc" outcome s

/-! ## Detail fetch, watchlist fetch, watchlist mutations -/

/-- Outcome of `GET /movie/{id}`: a parsed `MovieDetail` or a failure. -/
inductive DetailOutcome where
  | ok (detail : MovieDetail)
  | err (e : ApiFailure)
deriving Repr, DecidableEq

/-- The first `runInAction` of `getMovieDetails`, run synchronously before
the remote call; the code reuses the `'search'` slots: `loading['search'] =
true; error['search'] = null`. -/
def getMovieDetailsStart (s : MoviesStoreState) : MoviesStoreState :=
  { s with loading := s.loading.set .search true
           error := s.error.set .search none }

/-- `getMovieDetails(movieId)`: returns the fetched record and replaces
`currentMovieDetail` on success; returns `none`, stores an error message in
`error['search']` and leaves `currentMovieDetail` untouched on failure. -/
def getMovieDetails (movieId : Int) (outcome : DetailOutcome) (s : MoviesStoreState) :
    Option MovieDetail × MoviesStoreState :=
  let _ := movieId
  let s0 := getMovieDetailsStart s
  match outcome with
  | .ok detail =>
    (some detail,
     { s0 with currentMovieDetail := some detail
               loading := s0.loading.set .search false })
  | .err e =>
    (none,
     { s0 with loading := s0.loading.set .search false
               error := s0.error.set .search (some (axiosErrorMessage e)) })

/-- The first `runInAction` of `fetchWatchlist`, run synchronously before the
remote call; the code reuses the `'search'` slots. -/
def fetchWatchlistStart (s : MoviesStoreState) : MoviesStoreState :=
  { s with loading := s.loading.set .search true
           error := s.error.set .search none }

/-- `fetchWatchlist(page, sortBy)`: on success replaces `watchlistMovies`
with the response results and returns them; on failure stores an error
message in `error['search']` and returns the unchanged local watchlist. -/
def fetchWatchlist (page : Int) (sortBy : String) (outcome : FetchOutcome)
    (s : MoviesStoreState) : List Movie × MoviesStoreState :=
  let _ := page
  let _ := sortBy
  let s0 := fetchWatchlistStart s
  match outcome with
  | .ok resp =>
    (resp.results,
     { s0 with watchlistMovies := resp.results
               loading := s0.loading.set .search false })
  | .err e =>
    (s.watchlistMovies,
     { s0 with loading := s0.loading.set .search false
               error := s0.error.set .search (some (axiosErrorMessage e)) })

/-- `isInWatchlist(movieId)`: linear membership scan of the local watchlist. -/
def isInWatchlist (movieId : Int) (s : MoviesStoreState) : Bool :=
  s.watchlistMovies.any (fun movie => movie.id == movieId)

/-- Body of a `POST /account/{id}/watchlist` response; `success` is `none`
when the field is absent. -/
structure WatchlistPostResponse where
  success : Option Bool
deriving Repr, DecidableEq

/-- Outcome of the watchlist POST: a response body or a network failure. -/
inductive PostOutcome where
  | ok (resp : WatchlistPostResponse)
  | err (e : ApiFailure)
deriving Repr, DecidableEq

/-- JS truthiness of `response.data?.success` for an optional boolean field. -/
def successTruthy (resp : WatchlistPostResponse) : Bool :=
  resp.success == some true

/-- `addToWatchlist(movie)`: duplicate ids short-circuit with no request;
otherwise the movie is appended only when the response is truthy-successful.
Third component counts remote requests. -/
def addToWatchlist (movie : Movie) (outcome : PostOutcome) (s : MoviesStoreState) :
    Bool × MoviesStoreState × Nat :=
  if isInWatchlist movie.id s then (false, s, 0)
  else
    match outcome with
    | .ok resp =>
      if successTruthy resp then
        (true, { s with watchlistMovies := s.watchlistMovies ++ [movie] }, 1)
      else (false, s, 1)
    | .err _ => (false, s, 1)

/-- `removeFromWatchlist(movieId)`: an id absent from the local watchlist
short-circuits with no request; otherwise the id is filtered out only when
the response is truthy-successful.  Third component counts remote requests. -/
def removeFromWatchlist (movieId : Int) (outcome : PostOutcome) (s : MoviesStoreState) :
    Bool × MoviesStoreState × Nat :=
  match s.watchlistMovies.find? (fun m => m.id == movieId) with
  | none => (false, s, 0)
  | some _ =>
    match outcome with
    | .ok resp =>
      if successTruthy resp then
        (true,
         { s with watchlistMovies := s.watchlistMovies.filter (fun movie => movie.id != movieId) },
         1)
      else (false, s, 1)
    | .err _ => (false, s, 1)

/-- `toggleWatchlist(movie)`: remove when present (returning `!removed`),
add when absent (returning `added`). -/
def toggleWatchlist (movie : Movie) (outcome : PostOutcome) (s : MoviesStoreState) :
    Bool × MoviesStoreState × Nat :=
  if isInWatchlist movie.id s then
    let r := removeFromWatchlist movie.id outcome s
    (!r.1, r.2.1, r.2.2)
  else
    let r := addToWatchlist movie outcome s
    (r.1, r.2.1, r.2.2)

/-! ## Search (`searchMovies`, lines 355–440) -/

/-- `words.map(word => word.charAt(0)).join('')`: `charAt(0)` of an empty
word is the empty string, so empty words contribute nothing. -/
def initialsOf (words : List (List Char)) : List Char :=
  words.filterMap List.head?

/-- The filter predicate applied to each raw search result (lines 385–414):
stage 1 is a substring test of any search term against the lowercased title
or lowercased original title; stage 2 (only when the split produced a single
term and the trimmed query has length at least 2) is a substring test of the
term against the first-letter string of either title's space-separated
words. -/
def movieMatches (searchTerms : List (List Char)) (trimmedQuery : List Char)
    (movie : Movie) : Bool :=
  let title := jsToLower movie.title.toList
  let originalTitle :=
    match movie.original_title with
    | some t => jsToLower t.toList
    | none => []
  let hasPartialMatch := searchTerms.any fun term =>
    jsIncludesList title term || jsIncludesList originalTitle term
  let hasInitialsMatch :=
    if searchTerms.length == 1 && trimmedQuery.length ≥ 2 then
      let term := searchTerms.headD []
      let titleInitials := initialsOf (jsSplitChar ' ' title)
      let originalTitleInitials := initialsOf (jsSplitChar ' ' originalTitle)
      jsIncludesList titleInitials term || jsIncludesList originalTitleInitials term
    else false
  hasPartialMatch || hasInitialsMatch

/-- The sort comparator of lines 417–421:
`if (!a.release_date) return 1; if (!b.release_date) return -1;
return new Date(b.release_date).getTime() - new Date(a.release_date).getTime()`,
with a NaN difference coerced to +0 as `SortCompare` does. -/
def releaseDateCompare (a b : Movie) : Int :=
  if a.release_date = "" then 1
  else if b.release_date = "" then -1
  else
    match dateTimeOf a.release_date, dateTimeOf b.release_date with
    | some ta, some tb => tb - ta
    | _, _ => 0

/-- Element-order relation realized by `Array.prototype.sort` with the above
comparator: an element `x` standing before `y` keeps its place unless the
comparator strictly orders `y` before `x` (engines swap only on a strictly
negative comparator value, so non-strictly-ordered pairs stay stable). -/
def jsSortKeeps (x y : Movie) : Bool :=
  decide (0 ≤ releaseDateCompare y x)

/-- Stable insertion of `x` in front of the first element it may precede. -/
def insertLe {α : Type} (le : α → α → Bool) (x : α) : List α → List α
  | [] => [x]
  | y :: ys => if le x y then x :: y :: ys else y :: insertLe le x ys

/-- Stable sort: elements are inserted right to left, so each element is
placed before the first already-placed (hence originally later) element it
may precede. -/
def stableSortLe {α : Type} (le : α → α → Bool) (l : List α) : List α :=
  l.foldr (insertLe le) []

/-- The sort step of `searchMovies` (lines 417–421). -/
def sortByReleaseDate (l : List Movie) : List Movie :=
  stableSortLe jsSortKeeps l

/-- `searchMovies(query)`: trims the query; an empty trimmed query returns
`[]` with no request; otherwise one `/search/movie` request, the two-stage
filter and the release-date sort.  Components: returned array, post-state,
number of remote requests issued. -/
def searchMovies (query : String) (outcome : FetchOutcome) (s : MoviesStoreState) :
    List Movie × MoviesStoreState × Nat :=
  let s0 := { s with loading := s.loading.set .search true
                     error := s.error.set .search none }
  let trimmedQuery := jsTrimList query.toList
  if trimmedQuery = [] then
    ([], { s0 with loading := s0.loading.set .search false }, 0)
  else
    let searchTerms := jsSplitChar ' ' (jsToLower trimmedQuery)
    match outcome with
    | .ok resp =>
      let filteredResults := resp.results.filter (movieMatches searchTerms trimmedQuery)
      (sortByReleaseDate filteredResults,
       { s0 with loading := s0.loading.set .search false }, 1)
    | .err e =>
      ([], { s0 with loading := s0.loading.set .search false
                     error := s0.error.set .search (some (axiosErrorMessage e)) }, 1)

/-! ## Specification-side search predicate

The following two definitions follow the words of the specification ("split
the trimmed, lowercased query on whitespace into terms", "the string formed
by concatenating the first letter of each whitespace-separated word") rather
than the source, to compare the specified filter against the implemented
one. -/

/-- Split at every run of whitespace characters, keeping no empty segments:
the literal reading of "whitespace-separated". -/
def splitByPred (p : Char → Bool) : List Char → List (List Char)
  | [] => [[]]
  | c :: cs =>
    let r := splitByPred p cs
    if p c then [] :: r
    else
      match r with
      | seg :: rest => (c :: seg) :: rest
      | [] => [[c]]

/-- The whitespace-separated terms of a character list (empty terms from
adjacent whitespace are discarded, as "whitespace-separated" implies). -/
def whitespaceTerms (l : List Char) : List (List Char) :=
  (splitByPred Char.isWhitespace l).filter (fun seg => seg ≠ [])

/-- The claim's filter predicate, read literally: stage 1 matches any
whitespace-separated term of the trimmed, lowercased query as a substring of
a lowercased title; stage 2 applies only when that query is a single term of
length at least 2 and matches it against the initials of the
whitespace-separated words of either title. -/
def specKeeps (query : String) (movie : Movie) : Bool :=
  let trimmed := jsTrimList query.toList
  let terms := whitespaceTerms (jsToLower trimmed)
  let title := jsToLower movie.title.toList
  let originalTitle := jsToLower (movie.original_title.getD "").toList
  let stage1 := terms.any fun term =>
    jsIncludesList title term || jsIncludesList originalTitle term
  let stage2 :=
    match terms with
    | [term] =>
      term.length ≥ 2 &&
      (jsIncludesList (initialsOf (whitespaceTerms title)) term ||
       jsIncludesList (initialsOf (whitespaceTerms originalTitle)) term)
    | _ => false
  stage1 || stage2

/-- The amended filter predicate for the search claim: identical to the
claim except that terms and title words are produced by splitting on the
single space character, keeping the empty terms produced by consecutive
spaces (an empty term is a substring of every title). -/
def amendedKeeps (query : String) (movie : Movie) : Bool :=
  let trimmed := jsTrimList query.toList
  let terms := jsSplitChar ' ' (jsToLower trimmed)
  let title := jsToLower movie.title.toList
  let originalTitle := jsToLower (movie.original_title.getD "").toList
  let stage1 := terms.any fun term =>
    jsIncludesList title term || jsIncludesList originalTitle term
  let stage2 :=
    if terms.length == 1 && trimmed.length ≥ 2 then
      let term := terms.headD []
      jsIncludesList (initialsOf (jsSplitChar ' ' title)) term ||
      jsIncludesList (initialsOf (jsSplitChar ' ' originalTitle)) term
    else false
  stage1 || stage2

/-! ## Claim theorems: cache clearing, request construction, loading lifecycle -/

/-- C9: `clearCache()` empties the now-playing, upcoming and popular
collections and resets `currentPage` to 1 and `totalPages` to 0 for every
category key, while leaving every loading flag, every error slot, the
watchlist, the user profile and the detail slot exactly as they were. -/
theorem clearCache_resets_only_collections_and_pages (s : MoviesStoreState) :
    (clearCache s).nowPlayingMovies = [] ∧
    (clearCache s).upcomingMovies = [] ∧
    (clearCache s).popularMovies = [] ∧
    (∀ c : MovieCategory,
      (clearCache s).currentPage.get c = 1 ∧ (clearCache s).totalPages.get c = 0) ∧
    (clearCache s).loading = s.loading ∧
    (clearCache s).error = s.error ∧
    (clearCache s).watchlistMovies = s.watchlistMovies ∧
    (clearCache s).userProfile = s.userProfile ∧
    (clearCache s).currentMovieDetail = s.currentMovieDetail := by
  refine ⟨rfl, rfl, rfl, ?_, rfl, rfl, rfl, rfl, rfl⟩
  intro c
  cases c <;> exact ⟨rfl, rfl⟩

/-- C7: for every page and current local date, the `now_playing` request is a
`/discover/movie` query sorted by popularity descending, restricted to
release types `2|3`, with `release_date.gte` the current date minus 60 days
and `release_date.lte` the current date; the `upcoming` request has the same
sort and restriction with `release_date.gte` tomorrow and `release_date.lte`
two months from now, all formatted `YYYY-MM-DD`. -/
theorem fetchMoviesByCategory_date_windows (page : Int) (today : CivilDate) :
    buildCategoryRequest .now_playing page today =
      some ("/discover/movie",
        { include_adult := false, include_video := false, language := "en-US", page := page
          sort_by := "popularity.desc", with_release_type := some "2|3"
          release_date_gte := some (formatYMD (addDaysCivil today (-60)))
          release_date_lte := some (formatYMD today) }) ∧
    buildCategoryRequest .upcoming page today =
      some ("/discover/movie",
        { include_adult := false, include_video := false, language := "en-US", page := page
          sort_by := "popularity.desc", with_release_type := some "2|3"
          release_date_gte := some (formatYMD (addDaysCivil today 1))
          release_date_lte := some (formatYMD (addMonthsCivil today 2)) }) :=
  ⟨rfl, rfl⟩

/-- C1: for every category of the enumeration and every page ≥ 1,
`fetchMoviesByCategory` sets `loading[category]` to true and clears
`error[category]` synchronously before the remote call, and however the call
settles — success, failure, or the category being rejected as invalid —
`loading[category]` is false afterwards. -/
theorem fetchMoviesByCategory_loading_lifecycle (category : MovieCategory) (page : Int)
    (today : CivilDate) (outcome : FetchOutcome) (s : MoviesStoreState)
    (hpage : 1 ≤ page) :
    (fetchCategoryStart category s).loading.get category = true ∧
    (fetchCategoryStart category s).error.get category = none ∧
    (fetchMoviesByCategory category page today outcome s).1.loading.get category = false := by
  have _ := hpage
  refine ⟨?_, ?_, ?_⟩
  · cases category <;> rfl
  · cases category <;> rfl
  · cases category <;> cases outcome <;> rfl

/-- Witness for C1 at a concrete category, page, outcome and state. -/
theorem fetchMoviesByCategory_loading_lifecycle_witness :
    (1 : Int) ≤ 1 ∧
    (fetchMoviesByCategory .now_playing 1 ⟨2026, 10, 12⟩
      (.err ⟨true, "Network Error", none⟩) MoviesStoreState.initial).1.loading.get
        .now_playing = false :=
  ⟨by decide,
   (fetchMoviesByCategory_loading_lifecycle .now_playing 1 ⟨2026, 10, 12⟩
     (.err ⟨true, "Network Error", none⟩) MoviesStoreState.initial (by decide)).2.2⟩

/-- C8: `getMovieDetails` returns the fetched record and replaces the detail
slot on success; on failure it returns `none`, records the human-readable
error message in `error['search']`, and leaves the previous detail record
exactly as it was. -/
theorem getMovieDetails_success_and_failure (movieId : Int) (detail : MovieDetail)
    (e : ApiFailure) (s : MoviesStoreState) :
    (getMovieDetails movieId (.ok detail) s).1 = some detail ∧
    (getMovieDetails movieId (.ok detail) s).2.currentMovieDetail = some detail ∧
    (getMovieDetails movieId (.err e) s).1 = none ∧
    (getMovieDetails movieId (.err e) s).2.error.search = some (axiosErrorMessage e) ∧
    (getMovieDetails movieId (.err e) s).2.currentMovieDetail = s.currentMovieDetail :=
  ⟨rfl, rfl, rfl, rfl, rfl⟩

/-- C10: `getMovieDetails` and `fetchWatchlist` have no bookkeeping slots of
their own: each sets `loading['search']` to true and clears
`error['search']` at its start, clears `loading['search']` once settled, and
on failure writes its own message into `error['search']`. -/
theorem detail_and_watchlist_reuse_search_slots (movieId page : Int) (sortBy : String)
    (d : DetailOutcome) (o : FetchOutcome) (e1 e2 : ApiFailure) (s : MoviesStoreState) :
    (getMovieDetailsStart s).loading.search = true ∧
    (getMovieDetailsStart s).error.search = none ∧
    (fetchWatchlistStart s).loading.search = true ∧
    (fetchWatchlistStart s).error.search = none ∧
    (getMovieDetails movieId d s).2.loading.search = false ∧
    (fetchWatchlist page sortBy o s).2.loading.search = false ∧
    (getMovieDetails movieId (.err e1) s).2.error.search = some (axiosErrorMessage e1) ∧
    (fetchWatchlist page sortBy (.err e2) s).2.error.search = some (axiosErrorMessage e2) := by
  refine ⟨rfl, rfl, rfl, rfl, ?_, ?_, rfl, rfl⟩
  · cases d <;> rfl
  · cases o <;> rfl

/-! ## Claim theorems: watchlist mutations -/

/-- After filtering out an id, no element with that id remains. -/
theorem any_filter_id_ne (movieId : Int) (l : List Movie) :
    (l.filter (fun m => m.id != movieId)).any (fun m => m.id == movieId) = false := by
  induction l with
  | nil => rfl
  | cons m ms ih =>
    by_cases h : m.id = movieId
    · simp [List.filter_cons, h, ih]
    · simp [List.filter_cons, h, ih]

/-- Filtering out an id shortens the list by the number of its occurrences. -/
theorem filter_id_ne_length (movieId : Int) (l : List Movie) :
    (l.filter (fun m => m.id != movieId)).length
      + l.countP (fun m => m.id == movieId) = l.length := by
  have h0 : l.filter (fun m => m.id != movieId)
      = l.filter (fun m => !(m.id == movieId)) :=
    List.filter_congr (fun m _ => rfl)
  have h1 := List.length_eq_length_filter_add (l := l) (fun m : Movie => m.id == movieId)
  rw [h0, List.countP_eq_length_filter]
  omega

/-- An id absent from the watchlist is not found by `find?`. -/
theorem find_none_of_not_inWatchlist (movieId : Int) (s : MoviesStoreState)
    (h : isInWatchlist movieId s = false) :
    s.watchlistMovies.find? (fun m => m.id == movieId) = none := by
  rw [List.find?_eq_none]
  intro m hm
  simp only [isInWatchlist, List.any_eq_false] at h
  exact h m hm

/-- An id present in the watchlist is found by `find?`. -/
theorem find_some_of_inWatchlist (movieId : Int) (s : MoviesStoreState)
    (h : isInWatchlist movieId s = true) :
    ∃ m, s.watchlistMovies.find? (fun m => m.id == movieId) = some m := by
  cases hf : s.watchlistMovies.find? (fun m => m.id == movieId) with
  | some m => exact ⟨m, rfl⟩
  | none =>
    exfalso
    rw [List.find?_eq_none] at hf
    simp only [isInWatchlist, List.any_eq_true] at h
    obtain ⟨m, hm, hp⟩ := h
    exact hf m hm (by simpa using hp)

/-- C2: `addToWatchlist` on a duplicate id fails with no request and no state
change; otherwise it appends exactly the item (count +1) precisely when the
response carries `success: true`, and leaves the watchlist unchanged with a
failure result on an API-reported failure or a network error.
`removeFromWatchlist` is symmetric: an absent id fails with no request; only
on `success: true` is the id filtered out (count −1 when the id occurs
once); on any failure the watchlist is unchanged. -/
theorem watchlist_mutation_contract (movie : Movie) (movieId : Int)
    (resp : WatchlistPostResponse) (e : ApiFailure) (o : PostOutcome) (s : MoviesStoreState) :
    (isInWatchlist movie.id s = true → addToWatchlist movie o s = (false, s, 0)) ∧
    (isInWatchlist movie.id s = false → resp.success = some true →
      addToWatchlist movie (.ok resp) s =
        (true, { s with watchlistMovies := s.watchlistMovies ++ [movie] }, 1) ∧
      (addToWatchlist movie (.ok resp) s).2.1.watchlistMovies.length
        = s.watchlistMovies.length + 1 ∧
      isInWatchlist movie.id (addToWatchlist movie (.ok resp) s).2.1 = true) ∧
    (isInWatchlist movie.id s = false → resp.success ≠ some true →
      addToWatchlist movie (.ok resp) s = (false, s, 1)) ∧
    (isInWatchlist movie.id s = false → addToWatchlist movie (.err e) s = (false, s, 1)) ∧
    (isInWatchlist movieId s = false → removeFromWatchlist movieId o s = (false, s, 0)) ∧
    (isInWatchlist movieId s = true → resp.success = some true →
      removeFromWatchlist movieId (.ok resp) s =
        (true,
         { s with watchlistMovies := s.watchlistMovies.filter (fun m => m.id != movieId) },
         1) ∧
      isInWatchlist movieId (removeFromWatchlist movieId (.ok resp) s).2.1 = false ∧
      (s.watchlistMovies.countP (fun m => m.id == movieId) = 1 →
        (removeFromWatchlist movieId (.ok resp) s).2.1.watchlistMovies.length + 1
          = s.watchlistMovies.length)) ∧
    (isInWatchlist movieId s = true → resp.success ≠ some true →
      removeFromWatchlist movieId (.ok resp) s = (false, s, 1)) ∧
    (isInWatchlist movieId s = true → removeFromWatchlist movieId (.err e) s = (false, s, 1)) := by
  refine ⟨?_, ?_, ?_, ?_, ?_, ?_, ?_, ?_⟩
  · intro h
    simp [addToWatchlist, h]
  · intro h hs
    have hstate : addToWatchlist movie (.ok resp) s =
        (true, { s with watchlistMovies := s.watchlistMovies ++ [movie] }, 1) := by
      simp [addToWatchlist, h, successTruthy, hs]
    refine ⟨hstate, ?_, ?_⟩
    · rw [hstate]
      simp
    · rw [hstate]
      simp [isInWatchlist]
  · intro h hs
    have hb : successTruthy resp = false := by
      simp [successTruthy]
      exact hs
    simp [addToWatchlist, h, hb]
  · intro h
    simp [addToWatchlist, h]
  · intro h
    simp [removeFromWatchlist, find_none_of_not_inWatchlist movieId s h]
  · intro h hs
    obtain ⟨m, hm⟩ := find_some_of_inWatchlist movieId s h
    have hstate : removeFromWatchlist movieId (.ok resp) s =
        (true,
         { s with watchlistMovies := s.watchlistMovies.filter (fun m => m.id != movieId) },
         1) := by
      simp [removeFromWatchlist, hm, successTruthy, hs]
    refine ⟨hstate, ?_, ?_⟩
    · rw [hstate]
      exact any_filter_id_ne movieId s.watchlistMovies
    · intro hcnt
      rw [hstate]
      have := filter_id_ne_length movieId s.watchlistMovies
      rw [hcnt] at this
      exact this
  · intro h hs
    obtain ⟨m, hm⟩ := find_some_of_inWatchlist movieId s h
    have hb : successTruthy resp = false := by
      simp [successTruthy]
      exact hs
    simp [removeFromWatchlist, hm, hb]
  · intro h
    obtain ⟨m, hm⟩ := find_some_of_inWatchlist movieId s h
    simp [removeFromWatchlist, hm]

/-- A movie initially held in the watchlist of the witness state. -/
def movieW1 : Movie :=
  { id := 1, title := "Casino", poster_path := "", backdrop_path := ""
    release_date := "1995-11-22", vote_average := 8, overview := "", genre_ids := []
    original_title := none }

/-- A movie not initially in the watchlist of the witness state. -/
def movieW2 : Movie :=
  { id := 2, title := "Cars", poster_path := "", backdrop_path := ""
    release_date := "2006-06-09", vote_average := 7, overview := "", genre_ids := []
    original_title := none }

/-- Witness state: the store after the watchlist was populated with one movie. -/
def stateW : MoviesStoreState :=
  { MoviesStoreState.initial with watchlistMovies := [movieW1] }

/-- Witness for C2: a successful add of an absent id and a successful remove
of a present id on a concrete store. -/
theorem watchlist_mutation_contract_witness :
    addToWatchlist movieW2 (.ok ⟨some true⟩) stateW =
      (true, { stateW with watchlistMovies := stateW.watchlistMovies ++ [movieW2] }, 1) ∧
    removeFromWatchlist 1 (.ok ⟨some true⟩) stateW =
      (true,
       { stateW with watchlistMovies := stateW.watchlistMovies.filter (fun m => m.id != 1) },
       1) ∧
    (removeFromWatchlist 1 (.ok ⟨some true⟩) stateW).2.1.watchlistMovies.length + 1
      = stateW.watchlistMovies.length :=
  ⟨((watchlist_mutation_contract movieW2 1 ⟨some true⟩ ⟨false, "", none⟩
      (.ok ⟨some true⟩) stateW).2.1 (by decide) rfl).1,
   ((watchlist_mutation_contract movieW2 1 ⟨some true⟩ ⟨false, "", none⟩
      (.ok ⟨some true⟩) stateW).2.2.2.2.2.1 (by decide) rfl).1,
   ((watchlist_mutation_contract movieW2 1 ⟨some true⟩ ⟨false, "", none⟩
      (.ok ⟨some true⟩) stateW).2.2.2.2.2.1 (by decide) rfl).2.2 (by decide)⟩

/-- Appending a movie makes its id a member. -/
theorem any_append_self_id (movie : Movie) (l : List Movie) :
    (l ++ [movie]).any (fun m => m.id == movie.id) = true := by
  simp

/-- `removeFromWatchlist` either removes the id (returning true, with the id
no longer a member) or fails (returning false with the state unchanged). -/
theorem removeFromWatchlist_cases (movieId : Int) (o : PostOutcome) (s : MoviesStoreState) :
    ((removeFromWatchlist movieId o s).1 = true
      ∧ isInWatchlist movieId (removeFromWatchlist movieId o s).2.1 = false)
    ∨ ((removeFromWatchlist movieId o s).1 = false
      ∧ (removeFromWatchlist movieId o s).2.1 = s) := by
  unfold removeFromWatchlist
  cases hf : s.watchlistMovies.find? (fun m => m.id == movieId) with
  | none => exact Or.inr ⟨rfl, rfl⟩
  | some m =>
    cases o with
    | ok resp =>
      dsimp only
      by_cases hs : successTruthy resp = true
      · rw [if_pos hs]
        exact Or.inl ⟨rfl, any_filter_id_ne movieId s.watchlistMovies⟩
      · rw [if_neg hs]
        exact Or.inr ⟨rfl, rfl⟩
    | err e => exact Or.inr ⟨rfl, rfl⟩

/-- `addToWatchlist` on an absent id either appends the movie (returning
true, with the id now a member) or fails (returning false with the state
unchanged). -/
theorem addToWatchlist_cases (movie : Movie) (o : PostOutcome) (s : MoviesStoreState)
    (h : isInWatchlist movie.id s = false) :
    ((addToWatchlist movie o s).1 = true
      ∧ isInWatchlist movie.id (addToWatchlist movie o s).2.1 = true)
    ∨ ((addToWatchlist movie o s).1 = false
      ∧ (addToWatchlist movie o s).2.1 = s) := by
  unfold addToWatchlist
  rw [if_neg (by simp [h])]
  cases o with
  | ok resp =>
    dsimp only
    by_cases hs : successTruthy resp = true
    · rw [if_pos hs]
      exact Or.inl ⟨rfl, any_append_self_id movie s.watchlistMovies⟩
    · rw [if_neg hs]
      exact Or.inr ⟨rfl, rfl⟩
  | err e => exact Or.inr ⟨rfl, rfl⟩

/-- C3: the boolean returned by `toggleWatchlist` equals the membership state
`isInWatchlist(item.id)` that holds immediately after the call settles, for
every outcome of the underlying remote mutation (success, API-reported
failure, or network error). -/
theorem toggleWatchlist_returns_membership (movie : Movie) (o : PostOutcome)
    (s : MoviesStoreState) :
    (toggleWatchlist movie o s).1
      = isInWatchlist movie.id (toggleWatchlist movie o s).2.1 := by
  by_cases h : isInWatchlist movie.id s = true
  · have ht : toggleWatchlist movie o s =
        (!(removeFromWatchlist movie.id o s).1,
         (removeFromWatchlist movie.id o s).2.1,
         (removeFromWatchlist movie.id o s).2.2) := by
      unfold toggleWatchlist
      rw [if_pos h]
    rw [ht]
    rcases removeFromWatchlist_cases movie.id o s with ⟨h1, h2⟩ | ⟨h1, h2⟩
    · rw [h1, h2]
      rfl
    · rw [h1, h2]
      exact h.symm
  · have hfalse : isInWatchlist movie.id s = false := eq_false_of_ne_true h
    have ht : toggleWatchlist movie o s =
        ((addToWatchlist movie o s).1,
         (addToWatchlist movie o s).2.1,
         (addToWatchlist movie o s).2.2) := by
      unfold toggleWatchlist
      rw [if_neg h]
    rw [ht]
    rcases addToWatchlist_cases movie o s hfalse with ⟨h1, h2⟩ | ⟨h1, h2⟩
    · rw [h1, h2]
    · rw [h1, h2]
      exact hfalse.symm

/-! ## Claim theorems: cache bypass of the convenience wrappers -/

/-- Cached short-circuit of `fetchNowPlayingMovies`. -/
theorem fetchNowPlayingMovies_cached (today : CivilDate) (o : FetchOutcome)
    (t : MoviesStoreState) (h : t.nowPlayingMovies ≠ []) :
    fetchNowPlayingMovies false today o t = (t, 0) := by
  unfold fetchNowPlayingMovies
  rw [if_pos (by simp [List.length_pos, h])]

/-- Cached short-circuit of `fetchUpcomingMovies`. -/
theorem fetchUpcomingMovies_cached (today : CivilDate) (o : FetchOutcome)
    (t : MoviesStoreState) (h : t.upcomingMovies ≠ []) :
    fetchUpcomingMovies false today o t = (t, 0) := by
  unfold fetchUpcomingMovies
  rw [if_pos (by simp [List.length_pos, h])]

/-- Cached short-circuit of `fetchPopularMovies`. -/
theorem fetchPopularMovies_cached (o : FetchOutcome)
    (t : MoviesStoreState) (h : t.popularMovies ≠ []) :
    fetchPopularMovies false o t = (t, 0) := by
  unfold fetchPopularMovies
  rw [if_pos (by simp [List.length_pos, h])]

/-- C4: with a populated collection and no `forceRefresh`, each convenience
wrapper returns without a remote request and leaves all store state
unchanged; with `forceRefresh` it issues a request even if populated; and a
populating first call followed by two plain calls issues exactly one remote
request in total, the state settling after the first. -/
theorem category_fetch_cache_bypass (s : MoviesStoreState) (today : CivilDate)
    (o o2 o3 : FetchOutcome) (resp : MovieResponse) :
    (s.nowPlayingMovies ≠ [] → fetchNowPlayingMovies false today o s = (s, 0)) ∧
    (s.upcomingMovies ≠ [] → fetchUpcomingMovies false today o s = (s, 0)) ∧
    (s.popularMovies ≠ [] → fetchPopularMovies false o s = (s, 0)) ∧
    (fetchNowPlayingMovies true today o s).2 = 1 ∧
    (fetchUpcomingMovies true today o s).2 = 1 ∧
    (fetchPopularMovies true o s).2 = 1 ∧
    (resp.results ≠ [] →
      (fetchNowPlayingMovies false today (.ok resp) { s with nowPlayingMovies := [] }).2
        + (fetchNowPlayingMovies false today o2
            (fetchNowPlayingMovies false today (.ok resp)
              { s with nowPlayingMovies := [] }).1).2
        + (fetchNowPlayingMovies false today o3
            (fetchNowPlayingMovies false today o2
              (fetchNowPlayingMovies false today (.ok resp)
                { s with nowPlayingMovies := [] }).1).1).2 = 1) ∧
    (resp.results ≠ [] →
      (fetchUpcomingMovies false today (.ok resp) { s with upcomingMovies := [] }).2
        + (fetchUpcomingMovies false today o2
            (fetchUpcomingMovies false today (.ok resp)
              { s with upcomingMovies := [] }).1).2
        + (fetchUpcomingMovies false today o3
            (fetchUpcomingMovies false today o2
              (fetchUpcomingMovies false today (.ok resp)
                { s with upcomingMovies := [] }).1).1).2 = 1) ∧
    (resp.results ≠ [] →
      (fetchPopularMovies false (.ok resp) { s with popularMovies := [] }).2
        + (fetchPopularMovies false o2
            (fetchPopularMovies false (.ok resp) { s with popularMovies := [] }).1).2
        + (fetchPopularMovies false o3
            (fetchPopularMovies false o2
              (fetchPopularMovies false (.ok resp) { s with popularMovies := [] }).1).1).2
        = 1) := by
  refine ⟨fetchNowPlayingMovies_cached today o s, fetchUpcomingMovies_cached today o s,
    fetchPopularMovies_cached o s, ?_, ?_, ?_, ?_, ?_, ?_⟩
  · unfold fetchNowPlayingMovies
    rw [if_neg (by simp)]
    cases o <;> rfl
  · unfold fetchUpcomingMovies
    rw [if_neg (by simp)]
    cases o <;> rfl
  · unfold fetchPopularMovies
    rw [if_neg (by simp)]
    cases o <;> rfl
  · intro h
    have e1 : fetchNowPlayingMovies false today (.ok resp) { s with nowPlayingMovies := [] }
        = fetchMoviesByCategory .now_playing 1 today (.ok resp)
            { s with nowPlayingMovies := [] } := by
      unfold fetchNowPlayingMovies
      rw [if_neg (by simp)]
    have hne : (fetchNowPlayingMovies false today (.ok resp)
        { s with nowPlayingMovies := [] }).1.nowPlayingMovies ≠ [] := by
      rw [e1]
      exact h
    have e2 := fetchNowPlayingMovies_cached today o2 _ hne
    rw [e2]
    have e3 := fetchNowPlayingMovies_cached today o3 _ hne
    rw [e3, e1]
    rfl
  · intro h
    have e1 : fetchUpcomingMovies false today (.ok resp) { s with upcomingMovies := [] }
        = fetchMoviesByCategory .upcoming 1 today (.ok resp)
            { s with upcomingMovies := [] } := by
      unfold fetchUpcomingMovies
      rw [if_neg (by simp)]
    have hne : (fetchUpcomingMovies false today (.ok resp)
        { s with upcomingMovies := [] }).1.upcomingMovies ≠ [] := by
      rw [e1]
      exact h
    have e2 := fetchUpcomingMovies_cached today o2 _ hne
    rw [e2]
    have e3 := fetchUpcomingMovies_cached today o3 _ hne
    rw [e3, e1]
    rfl
  · intro h
    have e1 : fetchPopularMovies false (.ok resp) { s with popularMovies := [] }
        = fetchPopularMoviesSorted "popularity.desc" (.ok resp)
            { s with popularMovies := [] } := by
      unfold fetchPopularMovies
      rw [if_neg (by simp)]
    have hne : (fetchPopularMovies false (.ok resp)
        { s with popularMovies := [] }).1.popularMovies ≠ [] := by
      rw [e1]
      exact h
    have e2 := fetchPopularMovies_cached o2 _ hne
    rw [e2]
    have e3 := fetchPopularMovies_cached o3 _ hne
    rw [e3, e1]
    rfl

/-- Witness for C4 on a concrete populated store and a concrete non-empty
response. -/
theorem category_fetch_cache_bypass_witness :
    fetchNowPlayingMovies false ⟨2026, 10, 12⟩
      (.err ⟨true, "Network Error", none⟩)
      { MoviesStoreState.initial with nowPlayingMovies := [movieW1] }
      = ({ MoviesStoreState.initial with nowPlayingMovies := [movieW1] }, 0) ∧
    (fetchNowPlayingMovies false ⟨2026, 10, 12⟩
      (.ok { page := 1, results := [movieW1], total_pages := 1, total_results := 1 })
      { MoviesStoreState.initial with nowPlayingMovies := [] }).2
      + (fetchNowPlayingMovies false ⟨2026, 10, 12⟩
          (.ok { page := 1, results := [movieW1], total_pages := 1, total_results := 1 })
          (fetchNowPlayingMovies false ⟨2026, 10, 12⟩
            (.ok { page := 1, results := [movieW1], total_pages := 1, total_results := 1 })
            { MoviesStoreState.initial with nowPlayingMovies := [] }).1).2
      + (fetchNowPlayingMovies false ⟨2026, 10, 12⟩
          (.ok { page := 1, results := [movieW1], total_pages := 1, total_results := 1 })
          (fetchNowPlayingMovies false ⟨2026, 10, 12⟩
            (.ok { page := 1, results := [movieW1], total_pages := 1, total_results := 1 })
            (fetchNowPlayingMovies false ⟨2026, 10, 12⟩
              (.ok { page := 1, results := [movieW1], total_pages := 1, total_results := 1 })
              { MoviesStoreState.initial with nowPlayingMovies := [] }).1).1).2 = 1 :=
  ⟨(category_fetch_cache_bypass
      { MoviesStoreState.initial with nowPlayingMovies := [movieW1] } ⟨2026, 10, 12⟩
      (.err ⟨true, "Network Error", none⟩) (.err ⟨true, "Network Error", none⟩)
      (.err ⟨true, "Network Error", none⟩)
      { page := 1, results := [movieW1], total_pages := 1, total_results := 1 }).1
      (by decide),
   (category_fetch_cache_bypass MoviesStoreState.initial ⟨2026, 10, 12⟩
      (.ok { page := 1, results := [movieW1], total_pages := 1, total_results := 1 })
      (.ok { page := 1, results := [movieW1], total_pages := 1, total_results := 1 })
      (.ok { page := 1, results := [movieW1], total_pages := 1, total_results := 1 })
      { page := 1, results := [movieW1], total_pages := 1, total_results := 1 }).2.2.2.2.2.2.1
      (by decide)⟩

/-! ## Stable sort lemmas -/

/-- Inserting permutes with consing. -/
theorem insertLe_perm {α : Type} (le : α → α → Bool) (x : α) (l : List α) :
    (insertLe le x l).Perm (x :: l) := by
  induction l with
  | nil => exact List.Perm.refl _
  | cons y ys ih =>
    unfold insertLe
    by_cases h : le x y = true
    · rw [if_pos h]
    · rw [if_neg h]
      exact (ih.cons y).trans (List.Perm.swap x y ys)

/-- The stable sort is a permutation of its input. -/
theorem stableSortLe_perm {α : Type} (le : α → α → Bool) (l : List α) :
    (stableSortLe le l).Perm l := by
  induction l with
  | nil => exact List.Perm.refl _
  | cons x xs ih =>
    exact (insertLe_perm le x (stableSortLe le xs)).trans (ih.cons x)

/-- Insertion preserves sortedness when `le` is transitive and total on a set
of good elements containing the inserted element and the list. -/
theorem pairwise_insertLe {α : Type} (le : α → α → Bool) (good : α → Prop)
    (htrans : ∀ a b c, good a → good b → good c →
      le a b = true → le b c = true → le a c = true)
    (htot : ∀ a b, good a → good b → le a b = true ∨ le b a = true)
    (x : α) (hx : good x) :
    ∀ l : List α, (∀ y ∈ l, good y) →
      l.Pairwise (fun a b => le a b = true) →
      (insertLe le x l).Pairwise (fun a b => le a b = true) := by
  intro l
  induction l with
  | nil =>
    intro _ _
    simp [insertLe]
  | cons y ys ih =>
    intro hg hp
    rcases List.pairwise_cons.mp hp with ⟨hy, hys⟩
    unfold insertLe
    by_cases h : le x y = true
    · rw [if_pos h]
      refine List.pairwise_cons.mpr ⟨?_, hp⟩
      intro z hz
      rcases List.mem_cons.mp hz with rfl | hz2
      · exact h
      · exact htrans x y z hx (hg y (List.mem_cons_self y ys))
          (hg z (List.mem_cons_of_mem y hz2)) h (hy z hz2)
    · rw [if_neg h]
      refine List.pairwise_cons.mpr ⟨?_, ?_⟩
      · intro z hz
        have hz2 : z = x ∨ z ∈ ys := by
          simpa using (insertLe_perm le x ys).mem_iff.mp hz
        rcases hz2 with hzx | hz3
        · rw [hzx]
          rcases htot x y hx (hg y (List.mem_cons_self y ys)) with h1 | h1
          · exact absurd h1 h
          · exact h1
        · exact hy z hz3
      · exact ih (fun z hz => hg z (List.mem_cons_of_mem y hz)) hys

/-- The stable sort is sorted when `le` is transitive and total on a set of
good elements containing the list. -/
theorem pairwise_stableSortLe {α : Type} (le : α → α → Bool) (good : α → Prop)
    (htrans : ∀ a b c, good a → good b → good c →
      le a b = true → le b c = true → le a c = true)
    (htot : ∀ a b, good a → good b → le a b = true ∨ le b a = true) :
    ∀ l : List α, (∀ y ∈ l, good y) →
      (stableSortLe le l).Pairwise (fun a b => le a b = true) := by
  intro l
  induction l with
  | nil =>
    intro _
    simp [stableSortLe]
  | cons x xs ih =>
    intro hg
    have hmem : ∀ y ∈ stableSortLe le xs, good y := fun y hy =>
      hg y (List.mem_cons_of_mem x ((stableSortLe_perm le xs).mem_iff.mp hy))
    exact pairwise_insertLe le good htrans htot x (hg x (List.mem_cons_self x xs))
      (stableSortLe le xs) hmem (ih (fun y hy => hg y (List.mem_cons_of_mem x hy)))

/-- Filtering after an insertion: when the inserted element precedes every
kept element, it surfaces at the head of the kept sublist. -/
theorem filter_insertLe {α : Type} (le : α → α → Bool) (p : α → Bool) (x : α) :
    ∀ l : List α, (p x = true → ∀ y ∈ l, p y = true → le x y = true) →
      (insertLe le x l).filter p = if p x then x :: l.filter p else l.filter p := by
  intro l
  induction l with
  | nil =>
    intro _
    simp [insertLe, List.filter_cons]
  | cons y ys ih =>
    intro hpx
    unfold insertLe
    by_cases h : le x y = true
    · rw [if_pos h, List.filter_cons]
    · rw [if_neg h, List.filter_cons]
      by_cases hy : p y = true
      · have hxfalse : p x = false := by
          rcases Bool.eq_false_or_eq_true (p x) with hx | hx
          · exact absurd (hpx hx y (List.mem_cons_self y ys) hy) h
          · exact hx
        rw [if_pos hy, ih (fun hxt => absurd (hxfalse ▸ hxt) Bool.false_ne_true)]
        rw [if_neg (by simp [hxfalse]), if_neg (by simp [hxfalse]), List.filter_cons,
          if_pos hy]
      · rw [if_neg hy, ih (fun hx z hz hpz => hpx hx z (List.mem_cons_of_mem y hz) hpz)]
        by_cases hx : p x = true
        · rw [if_pos hx, if_pos hx, List.filter_cons, if_neg hy]
        · rw [if_neg hx, if_neg hx, List.filter_cons, if_neg hy]

/-- Stability of the stable sort: the sublist of elements kept by a filter
whose kept elements pairwise satisfy `le` is unchanged by sorting. -/
theorem filter_stableSortLe {α : Type} (le : α → α → Bool) (p : α → Bool)
    (hle : ∀ x y, p x = true → p y = true → le x y = true) :
    ∀ l : List α, (stableSortLe le l).filter p = l.filter p := by
  intro l
  induction l with
  | nil => rfl
  | cons x xs ih =>
    have h1 := filter_insertLe le p x (stableSortLe le xs)
      (fun hx y _ hy => hle x y hx hy)
    show (insertLe le x (stableSortLe le xs)).filter p = (x :: xs).filter p
    rw [h1, ih, List.filter_cons]

/-! ## The comparator as a key order -/

/-- A release date the comparator can interpret: empty (missing) or parseable. -/
def goodDate (m : Movie) : Prop :=
  m.release_date = "" ∨ (dateTimeOf m.release_date).isSome

/-- Sort key of the comparator: missing dates below every timestamp. -/
def sortKey (m : Movie) : WithBot Int :=
  if m.release_date = "" then ⊥
  else
    match dateTimeOf m.release_date with
    | some t => (t : WithBot Int)
    | none => ⊥

/-- `sortKey` of a parseable date is its timestamp. -/
theorem sortKey_eq_coe (m : Movie) (t : Int) (hne : m.release_date ≠ "")
    (ht : dateTimeOf m.release_date = some t) : sortKey m = (t : WithBot Int) := by
  simp [sortKey, hne, ht]

/-- `sortKey` of a missing date is bottom. -/
theorem sortKey_eq_bot_of_empty (m : Movie) (he : m.release_date = "") :
    sortKey m = ⊥ := by
  simp [sortKey, he]

/-- The empty string is not a parseable date. -/
theorem dateTimeOf_empty : dateTimeOf "" = none := rfl

/-- On elements with good dates, the element-order relation realized by the
sort is exactly the descending order of sort keys. -/
theorem jsSortKeeps_iff_key (a b : Movie) (ha : goodDate a) (hb : goodDate b) :
    jsSortKeeps a b = true ↔ sortKey b ≤ sortKey a := by
  by_cases hbe : b.release_date = ""
  · have hk := sortKey_eq_bot_of_empty b hbe
    rw [hk]
    simp [jsSortKeeps, releaseDateCompare, hbe]
  · obtain ⟨tb, htb⟩ := Option.isSome_iff_exists.mp (hb.resolve_left hbe)
    have hkb := sortKey_eq_coe b tb hbe htb
    rw [hkb]
    by_cases hae : a.release_date = ""
    · have hka := sortKey_eq_bot_of_empty a hae
      rw [hka]
      simp [jsSortKeeps, releaseDateCompare, hbe, hae, WithBot.not_coe_le_bot]
    · obtain ⟨ta, hta⟩ := Option.isSome_iff_exists.mp (ha.resolve_left hae)
      have hka := sortKey_eq_coe a ta hae hta
      rw [hka]
      rw [WithBot.coe_le_coe]
      simp [jsSortKeeps, releaseDateCompare, hbe, hae, htb, hta]

/-- Transitivity of the element order on good dates. -/
theorem jsSortKeeps_trans : ∀ a b c, goodDate a → goodDate b → goodDate c →
    jsSortKeeps a b = true → jsSortKeeps b c = true → jsSortKeeps a c = true := by
  intro a b c ha hb hc hab hbc
  rw [jsSortKeeps_iff_key a b ha hb] at hab
  rw [jsSortKeeps_iff_key b c hb hc] at hbc
  rw [jsSortKeeps_iff_key a c ha hc]
  exact le_trans hbc hab

/-- Totality of the element order on good dates. -/
theorem jsSortKeeps_total : ∀ a b, goodDate a → goodDate b →
    jsSortKeeps a b = true ∨ jsSortKeeps b a = true := by
  intro a b ha hb
  rcases le_total (sortKey b) (sortKey a) with h | h
  · exact Or.inl ((jsSortKeeps_iff_key a b ha hb).mpr h)
  · exact Or.inr ((jsSortKeeps_iff_key b a hb ha).mpr h)

/-- C6: the sort step of `searchMovies` orders by release date descending,
places missing/empty release dates last in their original relative order
among themselves, and keeps the original relative order of items with equal
release dates: the output is a permutation of the input, pairwise descending
with missing dates at the end, the filtered sublist of missing-date items is
unchanged, and for every timestamp the filtered sublist of items with that
release date is unchanged. -/
theorem searchMovies_sorted_stable (l : List Movie)
    (hgood : ∀ m ∈ l, m.release_date = "" ∨ (dateTimeOf m.release_date).isSome) :
    (sortByReleaseDate l).Perm l ∧
    (sortByReleaseDate l).Pairwise (fun a b =>
      b.release_date = "" ∨
      (a.release_date ≠ "" ∧ b.release_date ≠ "" ∧
        ∀ ta tb, dateTimeOf a.release_date = some ta →
          dateTimeOf b.release_date = some tb → tb ≤ ta)) ∧
    (sortByReleaseDate l).filter (fun m => m.release_date == "")
      = l.filter (fun m => m.release_date == "") ∧
    (∀ d : Int,
      (sortByReleaseDate l).filter (fun m => dateTimeOf m.release_date == some d)
        = l.filter (fun m => dateTimeOf m.release_date == some d)) := by
  have hgood2 : ∀ m ∈ l, goodDate m := hgood
  refine ⟨stableSortLe_perm _ l, ?_, ?_, ?_⟩
  · have hp := pairwise_stableSortLe jsSortKeeps goodDate jsSortKeeps_trans
      jsSortKeeps_total l hgood2
    refine List.Pairwise.imp_of_mem ?_ hp
    intro a b hamem hbmem hab
    have ha : goodDate a := hgood2 a ((stableSortLe_perm jsSortKeeps l).mem_iff.mp hamem)
    have hb : goodDate b := hgood2 b ((stableSortLe_perm jsSortKeeps l).mem_iff.mp hbmem)
    have hkey := (jsSortKeeps_iff_key a b ha hb).mp hab
    by_cases hbe : b.release_date = ""
    · exact Or.inl hbe
    · right
      obtain ⟨tb, htb⟩ := Option.isSome_iff_exists.mp (hb.resolve_left hbe)
      by_cases hae : a.release_date = ""
      · exfalso
        rw [sortKey_eq_bot_of_empty a hae, sortKey_eq_coe b tb hbe htb] at hkey
        exact WithBot.not_coe_le_bot tb hkey
      · refine ⟨hae, hbe, ?_⟩
        intro ta2 tb2 hta2 htb2
        rw [sortKey_eq_coe a ta2 hae hta2, sortKey_eq_coe b tb2 hbe htb2] at hkey
        exact WithBot.coe_le_coe.mp hkey
  · refine filter_stableSortLe jsSortKeeps _ ?_ l
    intro x y hx hy
    have hy2 : y.release_date = "" := by simpa using hy
    simp [jsSortKeeps, releaseDateCompare, hy2]
  · intro d
    refine filter_stableSortLe jsSortKeeps _ ?_ l
    intro x y hx hy
    have hx2 : dateTimeOf x.release_date = some d := by simpa using hx
    have hy2 : dateTimeOf y.release_date = some d := by simpa using hy
    have hxe : x.release_date ≠ "" := by
      intro he
      rw [he, dateTimeOf_empty] at hx2
      cases hx2
    have hye : y.release_date ≠ "" := by
      intro he
      rw [he, dateTimeOf_empty] at hy2
      cases hy2
    simp [jsSortKeeps, releaseDateCompare, hxe, hye, hx2, hy2]

/-- A movie with a missing (empty) release date for the sort witness. -/
def movieW3 : Movie :=
  { id := 3, title := "Cars", poster_path := "", backdrop_path := ""
    release_date := "", vote_average := 7, overview := "", genre_ids := []
    original_title := none }

/-- A movie with a 2011 release date for the sort witness. -/
def movieW4 : Movie :=
  { id := 4, title := "Captain America", poster_path := "", backdrop_path := ""
    release_date := "2011-07-22", vote_average := 7, overview := "", genre_ids := []
    original_title := none }

/-- The raw filtered results of the specification's sort example. -/
def searchListW : List Movie := [movieW4, movieW3, movieW1]

/-- Witness for C6 on the specification's example list. -/
theorem searchMovies_sorted_stable_witness :
    (∀ m ∈ searchListW, m.release_date = "" ∨ (dateTimeOf m.release_date).isSome) ∧
    (sortByReleaseDate searchListW).filter (fun m => m.release_date == "")
      = searchListW.filter (fun m => m.release_date == "") :=
  ⟨by decide, (searchMovies_sorted_stable searchListW (by decide)).2.2.1⟩

/-! ## Claim theorems: the search filter -/

/-- A movie whose title matches no non-empty search term. -/
def movieZ : Movie :=
  { id := 9, title := "zzz", poster_path := "", backdrop_path := ""
    release_date := "", vote_average := 0, overview := "", genre_ids := []
    original_title := none }

/-- A one-element raw search response around `movieZ`. -/
def respZ : MovieResponse :=
  { page := 1, results := [movieZ], total_pages := 1, total_results := 1 }

/-- Counterexample to the claim that `searchMovies` keeps exactly the items
matched by some whitespace-separated term of the query: the query
`"a  b"` (two adjacent spaces) has whitespace-separated terms `a` and `b`,
neither a substring of `"zzz"`, yet the code — which splits on every single
space character and so produces an empty term matching every title — keeps
the movie. -/
theorem searchMovies_filter_counterexample :
    (searchMovies "a  b" (.ok respZ) MoviesStoreState.initial).1 = [movieZ] ∧
    specKeeps "a  b" movieZ = false := by
  exact ⟨by decide, by decide⟩

/-- The implemented filter predicate coincides pointwise with the amended
space-splitting predicate. -/
theorem movieMatches_eq_amendedKeeps (query : String) (movie : Movie) :
    movieMatches (jsSplitChar ' ' (jsToLower (jsTrimList query.toList)))
      (jsTrimList query.toList) movie = amendedKeeps query movie := by
  rcases movie with ⟨mid, mtitle, mpp, mbp, mrd, mva, mov, mgi, mot⟩
  cases mot <;> rfl

/-- C5 amended: for every query that is non-empty after trimming, the items
returned by `searchMovies` are exactly (up to the sort's reordering) those
raw results kept by the two-stage filter whose terms come from splitting the
trimmed, lowercased query on single space characters — consecutive spaces
contribute empty terms, and an empty term is a substring of every title. -/
theorem searchMovies_filter_amended (query : String) (resp : MovieResponse)
    (s : MoviesStoreState) (h : jsTrimList query.toList ≠ []) :
    ((searchMovies query (.ok resp) s).1).Perm
      (resp.results.filter (amendedKeeps query)) := by
  have he : (searchMovies query (.ok resp) s).1
      = sortByReleaseDate (resp.results.filter
          (movieMatches (jsSplitChar ' ' (jsToLower (jsTrimList query.toList)))
            (jsTrimList query.toList))) := by
    unfold searchMovies
    dsimp only
    rw [if_neg h]
  rw [he]
  have hf : resp.results.filter
      (movieMatches (jsSplitChar ' ' (jsToLower (jsTrimList query.toList)))
        (jsTrimList query.toList))
      = resp.results.filter (amendedKeeps query) :=
    List.filter_congr (fun m _ => movieMatches_eq_amendedKeeps query m)
  rw [hf]
  exact stableSortLe_perm _ _

/-- Witness for the amended search-filter claim on a concrete query and
response. -/
theorem searchMovies_filter_amended_witness :
    jsTrimList "a  b".toList ≠ [] ∧
    ((searchMovies "a  b" (.ok respZ) MoviesStoreState.initial).1).Perm
      (respZ.results.filter (amendedKeeps "a  b")) :=
  ⟨by decide,
   searchMovies_filter_amended "a  b" respZ MoviesStoreState.initial (by decide)⟩
